import Mathlib

/-!
Verification of the Traced Agent-Run Orchestrator (src/src/server.js).

Shallow embedding: the two HTTP handlers (GET /joke wrapped in withSpan,
GET /feedback), the span combinator withSpan, the reply extractor
getLatestAssistantMessageText, and the token-usage attribute derivation are
translated into pure Lean functions over an explicit stub of the remote
Azure AI Projects client.  Every remote round trip is recorded in a call
log, every span operation in a span-operation log, so that span-lifecycle,
telemetry-schema and call-count properties become statements about those
logs.
-/

namespace StandAI

/-- A JavaScript error value: message is the optional .message property,
str is what String(error) would produce. -/
structure JsError where
  message : Option String
  str : String
deriving Repr, DecidableEq

/-- Models the expression error?.message ?? String(error) used by withSpan
and by the generic error handler (server.js lines 72 and 239). -/
def errMsgOrStr (e : JsError) : String := e.message.getD e.str

/-- OpenTelemetry span status codes; a span starts in unset. -/
inductive StatusCode
  | unset
  | ok
  | error
deriving Repr, DecidableEq

/-- Values attached to span attributes and event payloads.  The event
payloads in server.js are JSON.stringify of an object with message and
role fields (lines 99-102, 145-148); we keep that pair structured so the
recorded role is directly inspectable. -/
inductive AttrVal
  | str (s : String)
  | int (n : Int)
  | jsonMsgRole (message role : String)
deriving Repr, DecidableEq

/-- One operation performed on the active span. -/
inductive SpanOp
  | setAttribute (key : String) (value : AttrVal)
  | addEvent (name : String) (attrs : List (String × AttrVal))
  | setStatus (code : StatusCode) (message : Option String)
  | recordException (e : JsError)
  | endSpan
deriving Repr, DecidableEq

/-- One remote round trip to the AI Projects client. -/
inductive RemoteCall
  | getAgent (agentId : String)
  | threadsCreate
  | messagesCreate (threadId role text : String)
  | runsCreateAndPoll (threadId agentId : String)
  | messagesList (threadId : String) (order : String) (limit : Nat)
deriving Repr, DecidableEq

structure Agent where
  id : String
deriving Repr, DecidableEq

structure Thread where
  id : String
deriving Repr, DecidableEq

/-- The usage record of a run: either naming convention may be present
(server.js lines 124-125 read both). -/
structure Usage where
  inputTokens : Option Int
  input_tokens : Option Int
  outputTokens : Option Int
  output_tokens : Option Int
deriving Repr, DecidableEq

/-- A run record as returned by pollUntilDone.  usage is Option because
the remote JSON may lack the field entirely; lastError is an uninterpreted
error-detail payload. -/
structure Run where
  id : Option String
  status : String
  usage : Option Usage
  lastError : Option String
deriving Repr, DecidableEq

/-- The contentBlock.text payload: .value is a string, truthy only when
nonempty. -/
structure TextPayload where
  value : String
deriving Repr, DecidableEq

/-- One content block of a message: a type tag and an optional text
payload (contentBlock.text may be undefined). -/
structure Block where
  type : String
  text : Option TextPayload
deriving Repr, DecidableEq

/-- One message of a thread: content is none when the JSON value is not
an array (the Array.isArray check on line 220). -/
structure Message where
  role : String
  content : Option (List Block)
deriving Repr, DecidableEq

/-- Configuration identifiers resolved at startup (the settings object). -/
structure Settings where
  agentId : String
  feedbackAgentId : String
deriving Repr, DecidableEq

/-- Stub of the remote client: the outcome of each kind of round trip the
handlers perform during one invocation.  listMessages is the thread
message history ordered newest-first, of which the remote returns at most
the requested page. -/
structure Env where
  getAgent : Except JsError Agent
  threadsCreate : Except JsError Thread
  messagesCreate : Except JsError Unit
  pollRun : Except JsError Run
  listMessages : Except JsError (List Message)
deriving Repr

/-- HTTP response bodies produced by the two handlers and the generic
error handler. -/
inductive Body
  | okMessage (message threadId : String)
  | runFailed (details : Option String)
  | internalError (msg : String)
  | badRequest
deriving Repr, DecidableEq

structure HttpResponse where
  status : Nat
  body : Body
deriving Repr, DecidableEq

/-- The observable outcome of one handler invocation: remote calls made,
span operations performed, the response written (if any), and the error
handed to next() (if any). -/
structure HandlerTrace where
  calls : List RemoteCall
  spanOps : List SpanOp
  response : Option HttpResponse
  nextError : Option JsError
deriving Repr, DecidableEq

/-- The fixed persona prompt of the /joke handler (lines 88-89). -/
def systemPrompt : String :=
  "You are a standup comedian, return back only one joke. The user will either like or dislike the joke"

/-- The error thrown by getLatestAssistantMessageText when no assistant
text is found (line 231). -/
def noAssistantReplyError : JsError :=
  { message := some "No assistant response was found for this thread"
    str := "Error: No assistant response was found for this thread" }

/-- The TypeError raised by reading usage.inputTokens when run.usage is
undefined (line 124 with no guard on usage itself). -/
def usageTypeError : JsError :=
  { message := some "Cannot read properties of undefined (reading inputTokens)"
    str := "TypeError: Cannot read properties of undefined (reading inputTokens)" }

/-- Line 124: usage.inputTokens ?? usage.input_tokens. -/
def resolveInputTokens (u : Usage) : Option Int :=
  u.inputTokens.orElse fun _ => u.input_tokens

/-- Line 125: usage.outputTokens ?? usage.output_tokens. -/
def resolveOutputTokens (u : Usage) : Option Int :=
  u.outputTokens.orElse fun _ => u.output_tokens

/-- Lines 127-132: set each usage attribute only when the resolved value
is non-null. -/
def usageAttrOps (u : Usage) : List SpanOp :=
  (match resolveInputTokens u with
    | some v => [SpanOp.setAttribute "gen_ai.usage.input_tokens" (AttrVal.int v)]
    | none => []) ++
  (match resolveOutputTokens u with
    | some v => [SpanOp.setAttribute "gen_ai.usage.output_tokens" (AttrVal.int v)]
    | none => [])

/-- Inner loop of getLatestAssistantMessageText (lines 224-228): first
content block whose type is "text" and whose text?.value is truthy. -/
def firstTextBlock : List Block → Option String
  | [] => none
  | b :: rest =>
    match b.text with
    | some t => if b.type = "text" ∧ t.value ≠ "" then some t.value else firstTextBlock rest
    | none => firstTextBlock rest

/-- Outer loop of getLatestAssistantMessageText (lines 219-229): skip any
message that is not assistant-authored or whose content is not an array;
within an assistant message return the first text block, else continue. -/
def firstAssistantText : List Message → Option String
  | [] => none
  | m :: rest =>
    if m.role = "assistant" then
      match m.content with
      | some blocks =>
        match firstTextBlock blocks with
        | some v => some v
        | none => firstAssistantText rest
      | none => firstAssistantText rest
    else firstAssistantText rest

/-- Lines 213-232.  The remote list call is made with order desc and
limit 20, so the scanned page is the first 20 of the newest-first
history; an exhausted page raises noAssistantReplyError. -/
def getLatestAssistantMessageText (msgs : List Message) : Except JsError String :=
  match firstAssistantText (msgs.take 20) with
  | some v => Except.ok v
  | none => Except.error noAssistantReplyError

/-- The outcome of one wrapped handler body: its span operations and
whether it returned or threw. -/
structure BodyOutcome where
  spanOps : List SpanOp
  outcome : Except JsError Unit
deriving Repr

/-- Lines 61-82: withSpan runs the body inside an active span; on a throw
it sets status ERROR with the error message, records the exception and
passes the error to next; in the finally block it ends the span.  Returns
the full span-operation list and the error passed to next. -/
def withSpan (b : BodyOutcome) : List SpanOp × Option JsError :=
  match b.outcome with
  | Except.ok _ => (b.spanOps ++ [SpanOp.endSpan], none)
  | Except.error e =>
    (b.spanOps ++
      [SpanOp.setStatus StatusCode.error (some (errMsgOrStr e)),
       SpanOp.recordException e,
       SpanOp.endSpan],
     some e)

/-- Lines 93-104: the four schema attributes and the system-message span
event recorded right after thread creation.  Note the event payload
records role "system". -/
def baseOps (agent : Agent) (thread : Thread) : List SpanOp :=
  [SpanOp.setAttribute "gen_ai.system" (AttrVal.str "azure_ai_projects"),
   SpanOp.setAttribute "gen_ai.provider.name" (AttrVal.str "azure_ai_projects_agents"),
   SpanOp.setAttribute "gen_ai.thread.id" (AttrVal.str thread.id),
   SpanOp.setAttribute "gen_ai.agent.id" (AttrVal.str agent.id),
   SpanOp.addEvent "gen_ai.system.message"
     [("gen_ai.event.content", AttrVal.jsonMsgRole systemPrompt "system"),
      ("gen_ai.thread.id", AttrVal.str thread.id)]]

/-- Lines 118-121: run-id attributes, set only when run.id is truthy. -/
def runIdOps (thread : Thread) (run : Run) : List SpanOp :=
  match run.id with
  | some rid =>
    [SpanOp.setAttribute "gen_ai.thread.run.id" (AttrVal.str rid),
     SpanOp.setAttribute "gen_ai.response.id" (AttrVal.str (thread.id ++ "/" ++ rid))]
  | none => []

/-- Lines 144-154: the choice span event followed by the OK status set on
the full success path. -/
def choiceOps (thread : Thread) (run : Run) (messageText : String) : List SpanOp :=
  [SpanOp.addEvent "gen_ai.choice"
    [("gen_ai.event.content", AttrVal.jsonMsgRole messageText "assistant"),
     ("gen_ai.thread.id", AttrVal.str thread.id),
     ("gen_ai.thread.run.id", AttrVal.str (run.id.getD "")),
     ("gen_ai.response.id", AttrVal.str (thread.id ++ "/" ++ run.id.getD ""))],
   SpanOp.setStatus StatusCode.ok none]

/-- The catch block of the /joke handler body (lines 160-166): set status
ERROR with error?.message ?? "Unhandled error in /joke" and hand the
error to next; no response is written. -/
def jokeCatch (calls : List RemoteCall) (ops : List SpanOp) (e : JsError) : HandlerTrace :=
  { calls := calls
    spanOps := ops ++
      [SpanOp.setStatus StatusCode.error (some (e.message.getD "Unhandled error in /joke"))]
    response := none
    nextError := some e }

/-- The try body plus catch of the /joke handler (lines 86-167), step by
step in source order: resolve agent, create thread, set the four schema
attributes, record the system-message event, append the persona prompt
with role "assistant", start and poll the run, set run-id attributes when
present, dereference run.usage (TypeError when absent), set usage
attributes, answer 500 on a failed run, else extract the latest assistant
text, record the choice event, set status OK and answer 200. -/
def jokeBody (s : Settings) (env : Env) : HandlerTrace :=
  let c1 := [RemoteCall.getAgent s.agentId]
  match env.getAgent with
  | Except.error e => jokeCatch c1 [] e
  | Except.ok agent =>
  let c2 := c1 ++ [RemoteCall.threadsCreate]
  match env.threadsCreate with
  | Except.error e => jokeCatch c2 [] e
  | Except.ok thread =>
  let ops1 := baseOps agent thread
  let c3 := c2 ++ [RemoteCall.messagesCreate thread.id "assistant" systemPrompt]
  match env.messagesCreate with
  | Except.error e => jokeCatch c3 ops1 e
  | Except.ok _ =>
  let c4 := c3 ++ [RemoteCall.runsCreateAndPoll thread.id agent.id]
  match env.pollRun with
  | Except.error e => jokeCatch c4 ops1 e
  | Except.ok run =>
  let ops2 := ops1 ++ runIdOps thread run
  match run.usage with
  | none => jokeCatch c4 ops2 usageTypeError
  | some usage =>
  let ops3 := ops2 ++ usageAttrOps usage
  if run.status = "failed" then
    { calls := c4
      spanOps := ops3
      response := some { status := 500, body := Body.runFailed run.lastError }
      nextError := none }
  else
  let c5 := c4 ++ [RemoteCall.messagesList thread.id "desc" 20]
  match env.listMessages with
  | Except.error e => jokeCatch c5 ops3 e
  | Except.ok msgs =>
  match getLatestAssistantMessageText msgs with
  | Except.error e => jokeCatch c5 ops3 e
  | Except.ok messageText =>
  { calls := c5
    spanOps := ops3 ++ choiceOps thread run messageText
    response := some { status := 200, body := Body.okMessage messageText thread.id }
    nextError := none }

/-- The generic error handler (lines 235-241): 500 with msg derived from
the error. -/
def errorHandlerResponse (e : JsError) : HttpResponse :=
  { status := 500, body := Body.internalError (errMsgOrStr e) }

/-- The full /joke pipeline: the body (which never throws past its own
catch) runs under withSpan, and an error handed to next reaches the
generic error handler. -/
def runJoke (s : Settings) (env : Env) : HandlerTrace :=
  let t := jokeBody s env
  let w := withSpan { spanOps := t.spanOps, outcome := Except.ok () }
  { calls := t.calls
    spanOps := w.1
    response :=
      match t.response with
      | some r => some r
      | none => t.nextError.map errorHandlerResponse
    nextError := t.nextError }

/-- The query parameters of a /feedback request; none models an absent
parameter. -/
structure FeedbackReq where
  reaction : Option String
  threadId : Option String
deriving Repr, DecidableEq

/-- JavaScript truthiness of an optional query string: undefined and the
empty string are falsy. -/
def truthy : Option String → Bool
  | none => false
  | some s => s ≠ ""

/-- The feedback message template (line 183). -/
def feedbackMessage (reaction : String) : String :=
  "The result of the joke was: " ++ reaction ++ ", return another joke based on this information"

/-- A catch branch of the /feedback handler (lines 208-210): just next(error). -/
def feedbackCatch (calls : List RemoteCall) (e : JsError) : HandlerTrace :=
  { calls := calls, spanOps := [], response := none, nextError := some e }

/-- The /feedback handler (lines 170-211): validate both query params
before any remote call, then append the reaction message with role
"assistant", resolve the feedback agent, start and poll the run, answer
500 on a failed run, else extract the latest assistant text and answer
200; any thrown error goes to next.  No span is opened on this path. -/
def feedbackBody (s : Settings) (req : FeedbackReq) (env : Env) : HandlerTrace :=
  if !(truthy req.reaction) || !(truthy req.threadId) then
    { calls := [], spanOps := []
      response := some { status := 400, body := Body.badRequest }
      nextError := none }
  else
  let reaction := req.reaction.getD ""
  let threadId := req.threadId.getD ""
  let c1 := [RemoteCall.messagesCreate threadId "assistant" (feedbackMessage reaction)]
  match env.messagesCreate with
  | Except.error e => feedbackCatch c1 e
  | Except.ok _ =>
  let c2 := c1 ++ [RemoteCall.getAgent s.feedbackAgentId]
  match env.getAgent with
  | Except.error e => feedbackCatch c2 e
  | Except.ok agent =>
  let c3 := c2 ++ [RemoteCall.runsCreateAndPoll threadId agent.id]
  match env.pollRun with
  | Except.error e => feedbackCatch c3 e
  | Except.ok run =>
  if run.status = "failed" then
    { calls := c3, spanOps := []
      response := some { status := 500, body := Body.runFailed run.lastError }
      nextError := none }
  else
  let c4 := c3 ++ [RemoteCall.messagesList threadId "desc" 20]
  match env.listMessages with
  | Except.error e => feedbackCatch c4 e
  | Except.ok msgs =>
  match getLatestAssistantMessageText msgs with
  | Except.error e => feedbackCatch c4 e
  | Except.ok messageText =>
  { calls := c4, spanOps := []
    response := some { status := 200, body := Body.okMessage messageText threadId }
    nextError := none }

/-- The full /feedback pipeline: errors handed to next reach the generic
error handler. -/
def runFeedback (s : Settings) (req : FeedbackReq) (env : Env) : HandlerTrace :=
  let t := feedbackBody s req env
  { t with
    response :=
      match t.response with
      | some r => some r
      | none => t.nextError.map errorHandlerResponse }

/-- Step function for the status a span carries: a setStatus operation
overwrites it, every other operation leaves it. -/
def statusStep (acc : StatusCode) (op : SpanOp) : StatusCode :=
  match op with
  | SpanOp.setStatus c _ => c
  | _ => acc

/-- The status a span carries when it is closed: the code of the last
setStatus operation, unset when none was performed. -/
def finalStatus (ops : List SpanOp) : StatusCode :=
  ops.foldl statusStep StatusCode.unset

/-- How many times the span was ended. -/
def endCount (ops : List SpanOp) : Nat :=
  ops.countP fun op =>
    match op with
    | SpanOp.endSpan => true
    | _ => false

/-- Whether any exception record was added to the span. -/
def hasException (ops : List SpanOp) : Bool :=
  ops.any fun op =>
    match op with
    | SpanOp.recordException _ => true
    | _ => false

/-- Whether any message-listing round trip was made. -/
def hasListCall (calls : List RemoteCall) : Bool :=
  calls.any fun c =>
    match c with
    | RemoteCall.messagesList _ _ _ => true
    | _ => false

/-- Spec-side description of one content block of the reply extractor:
the text value of a block tagged as textual content with a truthy value. -/
def blockTextSpec (b : Block) : Option String :=
  b.text.bind fun t => if b.type = "text" ∧ t.value ≠ "" then some t.value else none

/-- Spec-side description of one message of the reply extractor: the
first textual content of an assistant-authored message with array
content. -/
def assistantMessageTextSpec (m : Message) : Option String :=
  if m.role = "assistant" then (m.content.getD []).findSome? blockTextSpec else none

/-! Concrete fixtures used by counterexamples and witnesses. -/

def settings0 : Settings := { agentId := "agent_id", feedbackAgentId := "agent_id" }

def agent1 : Agent := { id := "a1" }

def thread1 : Thread := { id := "t1" }

/-- A usage record with every token field absent. -/
def usage0 : Usage :=
  { inputTokens := none, input_tokens := none, outputTokens := none, output_tokens := none }

/-- A run that reached the failed terminal status with a usage record
present. -/
def runFailedRec : Run :=
  { id := some "r1", status := "failed", usage := some usage0, lastError := some "X" }

/-- Environment of the end-to-end failure scenario: everything succeeds
remotely, the run terminates failed. -/
def envFail : Env :=
  { getAgent := Except.ok agent1
    threadsCreate := Except.ok thread1
    messagesCreate := Except.ok ()
    pollRun := Except.ok runFailedRec
    listMessages := Except.ok [] }

/-- Environment where the run terminates failed and its usage field is
absent. -/
def envUsageNone : Env :=
  { getAgent := Except.ok agent1
    threadsCreate := Except.ok thread1
    messagesCreate := Except.ok ()
    pollRun := Except.ok { id := some "r1", status := "failed", usage := none, lastError := some "X" }
    listMessages := Except.ok [] }

/-- One assistant message with one text block. -/
def goodMsg : Message :=
  { role := "assistant", content := some [{ type := "text", text := some { value := "Why did..." } }] }

/-- Environment of the end-to-end success scenario. -/
def envGood : Env :=
  { getAgent := Except.ok agent1
    threadsCreate := Except.ok thread1
    messagesCreate := Except.ok ()
    pollRun := Except.ok
      { id := some "r1", status := "completed"
        usage := some { usage0 with inputTokens := some 10, outputTokens := some 4 }
        lastError := none }
    listMessages := Except.ok [goodMsg] }

/-- A transport fault talking to the remote platform. -/
def remoteFault : JsError :=
  { message := some "getaddrinfo ENOTFOUND project endpoint", str := "Error: getaddrinfo ENOTFOUND project endpoint" }

/-- Environment where thread creation raises a communication fault. -/
def envRemoteFault : Env :=
  { getAgent := Except.ok agent1
    threadsCreate := Except.error remoteFault
    messagesCreate := Except.ok ()
    pollRun := Except.ok runFailedRec
    listMessages := Except.ok [] }

/-- A page of 20 messages none of which is assistant-authored. -/
def pageNoAssistant : List Message :=
  List.replicate 20
    { role := "user", content := some [{ type := "text", text := some { value := "hi" } }] }

/-- A page whose third-newest message is assistant-authored with two text
blocks. -/
def pageThirdAssistant : List Message :=
  [{ role := "user", content := some [] },
   { role := "user", content := some [] },
   { role := "assistant"
     content := some
       [{ type := "text", text := some { value := "first joke text" } },
        { type := "text", text := some { value := "second joke text" } }] }]

/-! Helper lemmas about the trace observers. -/

lemma endCount_append (xs ys : List SpanOp) :
    endCount (xs ++ ys) = endCount xs + endCount ys :=
  List.countP_append _ _ _

lemma hasException_append (xs ys : List SpanOp) :
    hasException (xs ++ ys) = (hasException xs || hasException ys) :=
  List.any_append

@[simp] lemma hasException_baseOps (agent : Agent) (thread : Thread) :
    hasException (baseOps agent thread) = false := rfl

@[simp] lemma hasException_runIdOps (thread : Thread) (run : Run) :
    hasException (runIdOps thread run) = false := by
  cases h : run.id <;> simp [runIdOps, h, hasException]

@[simp] lemma hasException_usageAttrOps (u : Usage) :
    hasException (usageAttrOps u) = false := by
  cases h1 : resolveInputTokens u <;> cases h2 : resolveOutputTokens u <;>
    simp [usageAttrOps, h1, h2, hasException]

@[simp] lemma hasException_choiceOps (thread : Thread) (run : Run) (v : String) :
    hasException (choiceOps thread run v) = false := rfl

@[simp] lemma hasException_endSpan : hasException [SpanOp.endSpan] = false := rfl

@[simp] lemma hasException_setStatus (c : StatusCode) (m : Option String) :
    hasException [SpanOp.setStatus c m] = false := rfl

lemma finalStatus_append (xs ys : List SpanOp) :
    finalStatus (xs ++ ys) = ys.foldl statusStep (finalStatus xs) :=
  List.foldl_append _ _ _ _

@[simp] lemma foldl_statusStep_baseOps (acc : StatusCode) (agent : Agent) (thread : Thread) :
    (baseOps agent thread).foldl statusStep acc = acc := rfl

@[simp] lemma foldl_statusStep_runIdOps (acc : StatusCode) (thread : Thread) (run : Run) :
    (runIdOps thread run).foldl statusStep acc = acc := by
  cases h : run.id <;> simp [runIdOps, h, statusStep]

@[simp] lemma foldl_statusStep_usageAttrOps (acc : StatusCode) (u : Usage) :
    (usageAttrOps u).foldl statusStep acc = acc := by
  cases h1 : resolveInputTokens u <;> cases h2 : resolveOutputTokens u <;>
    simp [usageAttrOps, h1, h2, statusStep]

@[simp] lemma foldl_statusStep_choiceOps (acc : StatusCode) (thread : Thread) (run : Run) (v : String) :
    (choiceOps thread run v).foldl statusStep acc = StatusCode.ok := rfl

/-- Claim C6: withSpan closes the span exactly once on every exit path;
whenever the wrapped operation throws, it sets the span status to ERROR
with the error message, records the full error object as an exception,
and passes the very same error on to the next error channel. -/
theorem withSpan_lifecycle (b : BodyOutcome) :
    (endCount b.spanOps = 0 → endCount (withSpan b).1 = 1) ∧
    (∀ e : JsError, b.outcome = Except.error e →
      (withSpan b).1 =
        b.spanOps ++
          [SpanOp.setStatus StatusCode.error (some (errMsgOrStr e)),
           SpanOp.recordException e, SpanOp.endSpan] ∧
      (withSpan b).2 = some e) ∧
    (b.outcome = Except.ok () →
      (withSpan b).1 = b.spanOps ++ [SpanOp.endSpan] ∧ (withSpan b).2 = none) := by
  obtain ⟨ops, o⟩ := b
  cases o <;>
    simp [withSpan, endCount_append] <;>
    simp [endCount]

/-- Witness for C6 at concrete body outcomes: one normal return and one
throw. -/
theorem withSpan_lifecycle_witness :
    endCount ([] : List SpanOp) = 0 ∧
    endCount (withSpan { spanOps := [], outcome := Except.ok () }).1 = 1 ∧
    (withSpan { spanOps := [], outcome := Except.error remoteFault }).2 = some remoteFault :=
  ⟨rfl, (withSpan_lifecycle { spanOps := [], outcome := Except.ok () }).1 rfl,
   ((withSpan_lifecycle { spanOps := [], outcome := Except.error remoteFault }).2.1
      remoteFault rfl).2⟩

/-- Claim C5: a /feedback request missing (or carrying an empty) reaction
or threadId query parameter is answered 400 with no remote call at all. -/
theorem feedback_validation_guard (s : Settings) (req : FeedbackReq) (env : Env)
    (h : truthy req.reaction = false ∨ truthy req.threadId = false) :
    runFeedback s req env =
      { calls := [], spanOps := []
        response := some { status := 400, body := Body.badRequest }
        nextError := none } := by
  rcases h with h | h <;> simp [runFeedback, feedbackBody, h]

/-- Witness for C5: an absent reaction parameter. -/
theorem feedback_validation_guard_witness :
    truthy (none : Option String) = false ∧
    runFeedback settings0 { reaction := none, threadId := some "t1" } envGood =
      { calls := [], spanOps := []
        response := some { status := 400, body := Body.badRequest }
        nextError := none } :=
  ⟨rfl, feedback_validation_guard settings0 _ envGood (Or.inl rfl)⟩

/-- Claim C7: token-usage derivation accepts both field-naming
conventions, prefers the camel-case one when both are present, yields 5
for each of the two singleton examples, and a usage attribute is set on
the span exactly when the resolved value is non-null. -/
theorem usage_alias_preference :
    (∀ (n : Int) (a : Option Int),
       resolveInputTokens { usage0 with inputTokens := some n, input_tokens := a } = some n) ∧
    (∀ n : Int, resolveInputTokens { usage0 with input_tokens := some n } = some n) ∧
    (∀ (n : Int) (a : Option Int),
       resolveOutputTokens { usage0 with outputTokens := some n, output_tokens := a } = some n) ∧
    (∀ n : Int, resolveOutputTokens { usage0 with output_tokens := some n } = some n) ∧
    resolveInputTokens { usage0 with inputTokens := some 5 } = some 5 ∧
    resolveInputTokens { usage0 with input_tokens := some 5 } = some 5 ∧
    resolveInputTokens { usage0 with inputTokens := some 5, input_tokens := some 7 } = some 5 ∧
    (∀ (u : Usage) (v : Int),
       SpanOp.setAttribute "gen_ai.usage.input_tokens" (AttrVal.int v) ∈ usageAttrOps u ↔
         resolveInputTokens u = some v) ∧
    (∀ (u : Usage) (v : Int),
       SpanOp.setAttribute "gen_ai.usage.output_tokens" (AttrVal.int v) ∈ usageAttrOps u ↔
         resolveOutputTokens u = some v) := by
  refine ⟨fun n a => rfl, fun n => rfl, fun n a => rfl, fun n => rfl, rfl, rfl, rfl, ?_, ?_⟩ <;>
    intro u v <;>
    cases h1 : resolveInputTokens u <;> cases h2 : resolveOutputTokens u <;>
      simp [usageAttrOps, h1, h2, eq_comm]

/-- Witness for C7 projecting the singleton examples. -/
theorem usage_alias_preference_witness :
    resolveInputTokens { usage0 with inputTokens := some 5 } = some 5 ∧
    resolveInputTokens { usage0 with input_tokens := some 5 } = some 5 :=
  ⟨usage_alias_preference.2.2.2.2.1, usage_alias_preference.2.2.2.2.2.1⟩

/-- The block scan coincides with a first-hit search over the spec-side
block description. -/
lemma firstTextBlock_eq_findSome (l : List Block) :
    firstTextBlock l = l.findSome? blockTextSpec := by
  induction l with
  | nil => rfl
  | cons b rest ih =>
    cases h : b.text with
    | none => simp [firstTextBlock, List.findSome?, blockTextSpec, h, ih]
    | some t =>
      by_cases hc : b.type = "text" ∧ t.value ≠ "" <;>
        simp [firstTextBlock, List.findSome?, blockTextSpec, h, hc, ih]

/-- The message scan coincides with a first-hit search over the spec-side
message description. -/
lemma firstAssistantText_eq_findSome (l : List Message) :
    firstAssistantText l = l.findSome? assistantMessageTextSpec := by
  induction l with
  | nil => rfl
  | cons m rest ih =>
    by_cases hr : m.role = "assistant"
    · cases hc : m.content with
      | none => simp [firstAssistantText, assistantMessageTextSpec, hr, hc, ih, List.findSome?]
      | some blocks =>
        rw [List.findSome?]
        cases hf : firstTextBlock blocks <;>
          simp [firstAssistantText, assistantMessageTextSpec, hr, hc, ih,
            ← firstTextBlock_eq_findSome, hf]
    · simp [firstAssistantText, assistantMessageTextSpec, hr, ih, List.findSome?]

/-- Claim C3: the reply extractor scans only the first 20 newest-first
messages; it fails with the NoAssistantReply error exactly when no
message of that page carries assistant-authored textual content, and it
succeeds with v exactly when v is the first such content in scan order;
the page of 20 non-assistant messages fails and the page whose
third-newest message is assistant-authored with two text blocks yields
the first text. -/
theorem reply_extractor_contract :
    (∀ msgs : List Message,
       getLatestAssistantMessageText msgs = getLatestAssistantMessageText (msgs.take 20)) ∧
    (∀ msgs : List Message,
       (getLatestAssistantMessageText msgs = Except.error noAssistantReplyError ↔
         ∀ m ∈ msgs.take 20, assistantMessageTextSpec m = none)) ∧
    (∀ (msgs : List Message) (v : String),
       getLatestAssistantMessageText msgs = Except.ok v ↔
         (msgs.take 20).findSome? assistantMessageTextSpec = some v) ∧
    getLatestAssistantMessageText pageNoAssistant = Except.error noAssistantReplyError ∧
    getLatestAssistantMessageText pageThirdAssistant = Except.ok "first joke text" := by
  refine ⟨?_, ?_, ?_, rfl, rfl⟩
  · intro msgs
    simp [getLatestAssistantMessageText, List.take_take]
  · intro msgs
    rw [← List.findSome?_eq_none_iff]
    unfold getLatestAssistantMessageText
    rw [firstAssistantText_eq_findSome]
    cases h : (msgs.take 20).findSome? assistantMessageTextSpec <;>
      simp [h, noAssistantReplyError]
  · intro msgs v
    unfold getLatestAssistantMessageText
    rw [firstAssistantText_eq_findSome]
    cases h : (msgs.take 20).findSome? assistantMessageTextSpec <;> simp [h]

/-- Witness for C3 projecting the two concrete page scenarios. -/
theorem reply_extractor_contract_witness :
    getLatestAssistantMessageText pageNoAssistant = Except.error noAssistantReplyError ∧
    getLatestAssistantMessageText pageThirdAssistant = Except.ok "first joke text" :=
  ⟨reply_extractor_contract.2.2.2.1, reply_extractor_contract.2.2.2.2⟩

/-- Evaluation of the /joke body when every remote call succeeds, the run
carries a usage record and terminates failed. -/
lemma jokeBody_run_failed (s : Settings) (agent : Agent) (thread : Thread) (run : Run)
    (u : Usage) (lm : Except JsError (List Message))
    (hu : run.usage = some u) (hs : run.status = "failed") :
    jokeBody s { getAgent := Except.ok agent, threadsCreate := Except.ok thread,
                 messagesCreate := Except.ok (), pollRun := Except.ok run, listMessages := lm } =
      { calls := [RemoteCall.getAgent s.agentId, RemoteCall.threadsCreate,
                  RemoteCall.messagesCreate thread.id "assistant" systemPrompt,
                  RemoteCall.runsCreateAndPoll thread.id agent.id]
        spanOps := baseOps agent thread ++ runIdOps thread run ++ usageAttrOps u
        response := some { status := 500, body := Body.runFailed run.lastError }
        nextError := none } := by
  simp [jokeBody, hu, hs]

/-- Evaluation of the /joke body on the full success path. -/
lemma jokeBody_success (s : Settings) (agent : Agent) (thread : Thread) (run : Run)
    (u : Usage) (msgs : List Message) (v : String)
    (hu : run.usage = some u) (hs : run.status ≠ "failed")
    (hv : getLatestAssistantMessageText msgs = Except.ok v) :
    jokeBody s { getAgent := Except.ok agent, threadsCreate := Except.ok thread,
                 messagesCreate := Except.ok (), pollRun := Except.ok run,
                 listMessages := Except.ok msgs } =
      { calls := [RemoteCall.getAgent s.agentId, RemoteCall.threadsCreate,
                  RemoteCall.messagesCreate thread.id "assistant" systemPrompt,
                  RemoteCall.runsCreateAndPoll thread.id agent.id,
                  RemoteCall.messagesList thread.id "desc" 20]
        spanOps := baseOps agent thread ++ runIdOps thread run ++ usageAttrOps u ++
          choiceOps thread run v
        response := some { status := 200, body := Body.okMessage v thread.id }
        nextError := none } := by
  simp [jokeBody, hu, hs, hv]

/-- Evaluation of the /joke body when the run record carries no usage
field: the unguarded usage dereference raises a TypeError that the catch
block turns into an ERROR status and a next(error) call. -/
lemma jokeBody_usage_none (s : Settings) (agent : Agent) (thread : Thread) (run : Run)
    (lm : Except JsError (List Message)) (hu : run.usage = none) :
    jokeBody s { getAgent := Except.ok agent, threadsCreate := Except.ok thread,
                 messagesCreate := Except.ok (), pollRun := Except.ok run, listMessages := lm } =
      { calls := [RemoteCall.getAgent s.agentId, RemoteCall.threadsCreate,
                  RemoteCall.messagesCreate thread.id "assistant" systemPrompt,
                  RemoteCall.runsCreateAndPoll thread.id agent.id]
        spanOps := baseOps agent thread ++ runIdOps thread run ++
          [SpanOp.setStatus StatusCode.error
            (some "Cannot read properties of undefined (reading inputTokens)")]
        response := none
        nextError := some usageTypeError } := by
  simp [jokeBody, hu, jokeCatch, usageTypeError]

/-- The /joke pipeline in terms of its body: the body never throws past
its own catch, so withSpan only appends the guaranteed endSpan, and an
error handed to next is answered by the generic error handler. -/
lemma runJoke_unfold (s : Settings) (env : Env) :
    runJoke s env =
      { calls := (jokeBody s env).calls
        spanOps := (jokeBody s env).spanOps ++ [SpanOp.endSpan]
        response :=
          match (jokeBody s env).response with
          | some r => some r
          | none => (jokeBody s env).nextError.map errorHandlerResponse
        nextError := (jokeBody s env).nextError } := rfl

@[simp] lemma foldl_statusStep_append (xs ys : List SpanOp) (acc : StatusCode) :
    (xs ++ ys).foldl statusStep acc = ys.foldl statusStep (xs.foldl statusStep acc) :=
  List.foldl_append _ _ _ _

/-- Evaluation of the /feedback handler when both parameters are truthy,
every remote call succeeds and the run terminates failed. -/
lemma feedbackBody_run_failed (s : Settings) (reaction threadId : String) (agent : Agent)
    (run : Run) (tc : Except JsError Thread) (lm : Except JsError (List Message))
    (hr : reaction ≠ "") (ht : threadId ≠ "") (hs : run.status = "failed") :
    feedbackBody s { reaction := some reaction, threadId := some threadId }
        { getAgent := Except.ok agent, threadsCreate := tc, messagesCreate := Except.ok (),
          pollRun := Except.ok run, listMessages := lm } =
      { calls := [RemoteCall.messagesCreate threadId "assistant" (feedbackMessage reaction),
                  RemoteCall.getAgent s.feedbackAgentId,
                  RemoteCall.runsCreateAndPoll threadId agent.id]
        spanOps := []
        response := some { status := 500, body := Body.runFailed run.lastError }
        nextError := none } := by
  simp [feedbackBody, truthy, hr, ht, hs]

/-- Counterexample to claim C2: in the end-to-end failure scenario the
wrapped /joke operation completes without throwing and answers 500
RunFailed, yet the span is closed with status UNSET, not OK. -/
theorem span_ok_status_counterexample :
    (jokeBody settings0 envFail).nextError = none ∧
    (runJoke settings0 envFail).response =
      some { status := 500, body := Body.runFailed (some "X") } ∧
    endCount (runJoke settings0 envFail).spanOps = 1 ∧
    finalStatus (runJoke settings0 envFail).spanOps = StatusCode.unset ∧
    StatusCode.unset ≠ StatusCode.ok := by
  refine ⟨rfl, rfl, rfl, rfl, by decide⟩

/-- Claim C2 as amended: withSpan itself sets no status on a non-throwing
operation, so the span keeps whatever status the operation set: the full
/joke success path closes the span with status OK, while the RunFailed
path sets no status at all and the span closes with status UNSET. -/
theorem span_ok_status_amended :
    (∀ b : BodyOutcome, b.outcome = Except.ok () →
       (withSpan b).1 = b.spanOps ++ [SpanOp.endSpan]) ∧
    (∀ (s : Settings) (agent : Agent) (thread : Thread) (run : Run) (u : Usage)
       (msgs : List Message) (v : String),
       run.usage = some u → run.status ≠ "failed" →
       getLatestAssistantMessageText msgs = Except.ok v →
       finalStatus (runJoke s { getAgent := Except.ok agent, threadsCreate := Except.ok thread,
                                messagesCreate := Except.ok (), pollRun := Except.ok run,
                                listMessages := Except.ok msgs }).spanOps = StatusCode.ok) ∧
    (∀ (s : Settings) (agent : Agent) (thread : Thread) (run : Run) (u : Usage)
       (lm : Except JsError (List Message)),
       run.usage = some u → run.status = "failed" →
       finalStatus (runJoke s { getAgent := Except.ok agent, threadsCreate := Except.ok thread,
                                messagesCreate := Except.ok (), pollRun := Except.ok run,
                                listMessages := lm }).spanOps = StatusCode.unset ∧
       (runJoke s { getAgent := Except.ok agent, threadsCreate := Except.ok thread,
                    messagesCreate := Except.ok (), pollRun := Except.ok run,
                    listMessages := lm }).response =
         some { status := 500, body := Body.runFailed run.lastError } ∧
       (jokeBody s { getAgent := Except.ok agent, threadsCreate := Except.ok thread,
                     messagesCreate := Except.ok (), pollRun := Except.ok run,
                     listMessages := lm }).nextError = none) := by
  refine ⟨?_, ?_, ?_⟩
  · intro b h
    obtain ⟨ops, o⟩ := b
    cases o with
    | ok _ => simp [withSpan]
    | error e => simp at h
  · intro s agent thread run u msgs v hu hs hv
    rw [runJoke_unfold, jokeBody_success s agent thread run u msgs v hu hs hv]
    simp [finalStatus, statusStep]
  · intro s agent thread run u lm hu hs
    rw [runJoke_unfold, jokeBody_run_failed s agent thread run u lm hu hs]
    refine ⟨by simp [finalStatus, statusStep], rfl, rfl⟩

/-- Witness for C2 as amended, on the concrete success and failure
environments. -/
theorem span_ok_status_amended_witness :
    (withSpan { spanOps := [], outcome := Except.ok () }).1 = [] ++ [SpanOp.endSpan] ∧
    finalStatus (runJoke settings0 envGood).spanOps = StatusCode.ok ∧
    finalStatus (runJoke settings0 envFail).spanOps = StatusCode.unset := by
  refine ⟨span_ok_status_amended.1 { spanOps := [], outcome := Except.ok () } rfl, ?_, ?_⟩
  · exact span_ok_status_amended.2.1 settings0 agent1 thread1
      { id := some "r1", status := "completed"
        usage := some { usage0 with inputTokens := some 10, outputTokens := some 4 }
        lastError := none }
      { usage0 with inputTokens := some 10, outputTokens := some 4 }
      [goodMsg] "Why did..." rfl (by decide) rfl
  · exact (span_ok_status_amended.2.2 settings0 agent1 thread1 runFailedRec usage0
      (Except.ok []) rfl rfl).1

/-- Counterexample to claim C4: a run that terminates failed but carries
no usage record is not answered with the RunFailed body; the unguarded
usage dereference throws first, so the response comes from the generic
error handler and an error does reach it. -/
theorem run_failed_response_counterexample :
    (runJoke settings0 envUsageNone).response =
      some { status := 500
             body := Body.internalError "Cannot read properties of undefined (reading inputTokens)" } ∧
    (runJoke settings0 envUsageNone).nextError = some usageTypeError ∧
    (runJoke settings0 envUsageNone).response ≠
      some { status := 500, body := Body.runFailed (some "X") } := by
  refine ⟨rfl, rfl, by decide⟩

/-- Claim C4 as amended: a run with terminal status failed is answered
500 with the RunFailed body carrying the run lastError, no error reaches
the span or the generic error handler and no message listing is
attempted — on the /joke path under the proviso that the run record
carries a usage object (the usage dereference precedes the status check),
and on the /feedback path unconditionally. -/
theorem run_failed_response_amended :
    (∀ (s : Settings) (agent : Agent) (thread : Thread) (run : Run) (u : Usage)
       (lm : Except JsError (List Message)),
       run.usage = some u → run.status = "failed" →
       (runJoke s { getAgent := Except.ok agent, threadsCreate := Except.ok thread,
                    messagesCreate := Except.ok (), pollRun := Except.ok run,
                    listMessages := lm }).response =
         some { status := 500, body := Body.runFailed run.lastError } ∧
       (runJoke s { getAgent := Except.ok agent, threadsCreate := Except.ok thread,
                    messagesCreate := Except.ok (), pollRun := Except.ok run,
                    listMessages := lm }).nextError = none ∧
       hasException (runJoke s { getAgent := Except.ok agent, threadsCreate := Except.ok thread,
                                 messagesCreate := Except.ok (), pollRun := Except.ok run,
                                 listMessages := lm }).spanOps = false ∧
       hasListCall (runJoke s { getAgent := Except.ok agent, threadsCreate := Except.ok thread,
                                messagesCreate := Except.ok (), pollRun := Except.ok run,
                                listMessages := lm }).calls = false) ∧
    (∀ (s : Settings) (reaction threadId : String) (agent : Agent) (run : Run)
       (tc : Except JsError Thread) (lm : Except JsError (List Message)),
       reaction ≠ "" → threadId ≠ "" → run.status = "failed" →
       (runFeedback s { reaction := some reaction, threadId := some threadId }
           { getAgent := Except.ok agent, threadsCreate := tc, messagesCreate := Except.ok (),
             pollRun := Except.ok run, listMessages := lm }).response =
         some { status := 500, body := Body.runFailed run.lastError } ∧
       (runFeedback s { reaction := some reaction, threadId := some threadId }
           { getAgent := Except.ok agent, threadsCreate := tc, messagesCreate := Except.ok (),
             pollRun := Except.ok run, listMessages := lm }).nextError = none ∧
       hasListCall (runFeedback s { reaction := some reaction, threadId := some threadId }
           { getAgent := Except.ok agent, threadsCreate := tc, messagesCreate := Except.ok (),
             pollRun := Except.ok run, listMessages := lm }).calls = false) := by
  constructor
  · intro s agent thread run u lm hu hs
    rw [runJoke_unfold, jokeBody_run_failed s agent thread run u lm hu hs]
    refine ⟨rfl, rfl, ?_, ?_⟩
    · simp [hasException_append]
    · simp [hasListCall]
  · intro s reaction threadId agent run tc lm hr ht hs
    rw [runFeedback, feedbackBody_run_failed s reaction threadId agent run tc lm hr ht hs]
    refine ⟨rfl, rfl, by simp [hasListCall]⟩

/-- Witness for C4 as amended, on the failure environments. -/
theorem run_failed_response_amended_witness :
    (runJoke settings0 envFail).response =
      some { status := 500, body := Body.runFailed (some "X") } ∧
    (runFeedback settings0 { reaction := some "like", threadId := some "t1" }
        { getAgent := Except.ok agent1, threadsCreate := Except.ok thread1
          messagesCreate := Except.ok (), pollRun := Except.ok runFailedRec
          listMessages := Except.ok [] }).response =
      some { status := 500, body := Body.runFailed (some "X") } := by
  constructor
  · exact (run_failed_response_amended.1 settings0 agent1 thread1 runFailedRec usage0
      (Except.ok []) rfl rfl).1
  · exact (run_failed_response_amended.2 settings0 "like" "t1" agent1 runFailedRec
      (Except.ok thread1) (Except.ok []) (by decide) (by decide) rfl).1

/-- Claim C8: a fully successful /joke invocation answers 200 with the
extracted assistant text and the identifier of the thread created in that
same invocation. -/
theorem joke_success_response (s : Settings) (agent : Agent) (thread : Thread) (run : Run)
    (u : Usage) (msgs : List Message) (v : String)
    (hu : run.usage = some u) (hs : run.status ≠ "failed")
    (hv : getLatestAssistantMessageText msgs = Except.ok v) :
    (runJoke s { getAgent := Except.ok agent, threadsCreate := Except.ok thread,
                 messagesCreate := Except.ok (), pollRun := Except.ok run,
                 listMessages := Except.ok msgs }).response =
      some { status := 200, body := Body.okMessage v thread.id } ∧
    (runJoke s { getAgent := Except.ok agent, threadsCreate := Except.ok thread,
                 messagesCreate := Except.ok (), pollRun := Except.ok run,
                 listMessages := Except.ok msgs }).nextError = none := by
  rw [runJoke_unfold, jokeBody_success s agent thread run u msgs v hu hs hv]
  exact ⟨rfl, rfl⟩

/-- Witness for C8 on the end-to-end success environment. -/
theorem joke_success_response_witness :
    (runJoke settings0 envGood).response =
      some { status := 200, body := Body.okMessage "Why did..." "t1" } :=
  (joke_success_response settings0 agent1 thread1
    { id := some "r1", status := "completed"
      usage := some { usage0 with inputTokens := some 10, outputTokens := some 4 }
      lastError := none }
    { usage0 with inputTokens := some 10, outputTokens := some 4 }
    [goodMsg] "Why did..." rfl (by decide) rfl).1

/-- Claim C10: the run usage record itself is dereferenced without a
guard, so any run whose usage field is absent makes the /joke operation
throw a TypeError that ends as a 500 from the generic error handler, even
when the terminal status allows success; whereas a present usage record
with every token field absent causes no error. -/
theorem usage_deref_unguarded :
    (∀ (s : Settings) (agent : Agent) (thread : Thread) (run : Run)
       (lm : Except JsError (List Message)),
       run.usage = none →
       (runJoke s { getAgent := Except.ok agent, threadsCreate := Except.ok thread,
                    messagesCreate := Except.ok (), pollRun := Except.ok run,
                    listMessages := lm }).nextError = some usageTypeError ∧
       (runJoke s { getAgent := Except.ok agent, threadsCreate := Except.ok thread,
                    messagesCreate := Except.ok (), pollRun := Except.ok run,
                    listMessages := lm }).response =
         some { status := 500
                body := Body.internalError (errMsgOrStr usageTypeError) } ∧
       hasListCall (runJoke s { getAgent := Except.ok agent, threadsCreate := Except.ok thread,
                                messagesCreate := Except.ok (), pollRun := Except.ok run,
                                listMessages := lm }).calls = false) ∧
    (∀ (s : Settings) (agent : Agent) (thread : Thread) (run : Run)
       (msgs : List Message) (v : String),
       run.usage = some usage0 → run.status ≠ "failed" →
       getLatestAssistantMessageText msgs = Except.ok v →
       (runJoke s { getAgent := Except.ok agent, threadsCreate := Except.ok thread,
                    messagesCreate := Except.ok (), pollRun := Except.ok run,
                    listMessages := Except.ok msgs }).nextError = none ∧
       (runJoke s { getAgent := Except.ok agent, threadsCreate := Except.ok thread,
                    messagesCreate := Except.ok (), pollRun := Except.ok run,
                    listMessages := Except.ok msgs }).response =
         some { status := 200, body := Body.okMessage v thread.id }) := by
  constructor
  · intro s agent thread run lm hu
    rw [runJoke_unfold, jokeBody_usage_none s agent thread run lm hu]
    refine ⟨rfl, rfl, by simp [hasListCall]⟩
  · intro s agent thread run msgs v hu hs hv
    rw [runJoke_unfold, jokeBody_success s agent thread run usage0 msgs v hu hs hv]
    exact ⟨rfl, rfl⟩

/-- Witness for C10: a completed run with an absent usage record still
ends as a 500 from the generic error handler, and a usage record with all
token fields absent does not. -/
theorem usage_deref_unguarded_witness :
    (runJoke settings0
        { getAgent := Except.ok agent1, threadsCreate := Except.ok thread1
          messagesCreate := Except.ok ()
          pollRun := Except.ok { id := some "r1", status := "completed", usage := none, lastError := none }
          listMessages := Except.ok [goodMsg] }).nextError = some usageTypeError ∧
    (runJoke settings0
        { getAgent := Except.ok agent1, threadsCreate := Except.ok thread1
          messagesCreate := Except.ok ()
          pollRun := Except.ok { id := some "r1", status := "completed", usage := some usage0, lastError := none }
          listMessages := Except.ok [goodMsg] }).nextError = none := by
  constructor
  · exact (usage_deref_unguarded.1 settings0 agent1 thread1
      { id := some "r1", status := "completed", usage := none, lastError := none }
      (Except.ok [goodMsg]) rfl).1
  · exact (usage_deref_unguarded.2 settings0 agent1 thread1
      { id := some "r1", status := "completed", usage := some usage0, lastError := none }
      [goodMsg] "Why did..." rfl (by decide) rfl).1

/-- The /joke body records no exception on the span on any path: its own
catch block intercepts every error before withSpan could record it. -/
lemma jokeBody_no_exception (s : Settings) (env : Env) :
    hasException (jokeBody s env).spanOps = false := by
  obtain ⟨ga, tc, mc, pr, lm⟩ := env
  simp only [jokeBody]
  repeat' split
  all_goals first
    | rfl
    | simp [jokeCatch, hasException_append]

/-- Whenever the /joke body hands an error to next, it wrote no response
and its last span operation is the catch block ERROR status. -/
lemma jokeBody_next_error (s : Settings) (env : Env) (e : JsError)
    (h : (jokeBody s env).nextError = some e) :
    (jokeBody s env).response = none ∧
    ∃ ops, (jokeBody s env).spanOps =
      ops ++ [SpanOp.setStatus StatusCode.error
        (some (e.message.getD "Unhandled error in /joke"))] := by
  obtain ⟨ga, tc, mc, pr, lm⟩ := env
  revert h
  simp only [jokeBody]
  repeat' split
  all_goals intro h
  all_goals try (injection h with he; subst he; exact ⟨rfl, _, rfl⟩)
  all_goals exact absurd h (by simp)

/-- Counterexample to claim C9: a communication fault during thread
creation is handed to the generic error handler with span status ERROR,
but no exception record is ever added to the span. -/
theorem remote_fault_span_counterexample :
    (runJoke settings0 envRemoteFault).nextError = some remoteFault ∧
    (runJoke settings0 envRemoteFault).response =
      some { status := 500
             body := Body.internalError "getaddrinfo ENOTFOUND project endpoint" } ∧
    finalStatus (runJoke settings0 envRemoteFault).spanOps = StatusCode.error ∧
    hasException (runJoke settings0 envRemoteFault).spanOps = false :=
  ⟨rfl, rfl, rfl, rfl⟩

/-- Claim C9 as amended: every error raised inside the /joke operation is
propagated to the generic error handler (yielding the 500 internal-error
shape) with the span status set to ERROR, but it is never recorded on the
span as an exception: the handler catch intercepts the error before
withSpan, whose recordException path is therefore unreachable on /joke. -/
theorem remote_fault_span_amended :
    (∀ (s : Settings) (env : Env), hasException (runJoke s env).spanOps = false) ∧
    (∀ (s : Settings) (env : Env) (e : JsError),
       (jokeBody s env).nextError = some e →
       (runJoke s env).response = some (errorHandlerResponse e) ∧
       (runJoke s env).nextError = some e ∧
       finalStatus (runJoke s env).spanOps = StatusCode.error) := by
  constructor
  · intro s env
    rw [runJoke_unfold]
    simp [hasException_append, jokeBody_no_exception]
  · intro s env e h
    obtain ⟨hresp, ops, hops⟩ := jokeBody_next_error s env e h
    rw [runJoke_unfold]
    refine ⟨?_, ?_, ?_⟩
    · simp [hresp, h]
    · exact h
    · rw [hops]
      simp [finalStatus, statusStep]

/-- Witness for C9 as amended, on the thread-creation fault environment. -/
theorem remote_fault_span_amended_witness :
    hasException (runJoke settings0 envRemoteFault).spanOps = false ∧
    (runJoke settings0 envRemoteFault).response =
      some (errorHandlerResponse remoteFault) ∧
    finalStatus (runJoke settings0 envRemoteFault).spanOps = StatusCode.error :=
  ⟨remote_fault_span_amended.1 settings0 envRemoteFault,
   (remote_fault_span_amended.2 settings0 envRemoteFault remoteFault rfl).1,
   (remote_fault_span_amended.2 settings0 envRemoteFault remoteFault rfl).2.2⟩

/-- Counterexample to claim C1: in a concrete /joke invocation the
persona prompt is appended with role argument "assistant", not "system",
even though the span event records role "system". -/
theorem persona_role_counterexample :
    RemoteCall.messagesCreate "t1" "assistant" systemPrompt ∈
      (jokeBody settings0 envGood).calls ∧
    RemoteCall.messagesCreate "t1" "system" systemPrompt ∉
      (jokeBody settings0 envGood).calls ∧
    SpanOp.addEvent "gen_ai.system.message"
      [("gen_ai.event.content", AttrVal.jsonMsgRole systemPrompt "system"),
       ("gen_ai.thread.id", AttrVal.str "t1")] ∈
      (jokeBody settings0 envGood).spanOps := by
  refine ⟨by decide, by decide, by decide⟩

/-- Claim C1 as amended: on every /joke invocation that reaches the
message append, the persona prompt is posted with role "assistant" (and
no message is ever posted with role "system"), while the
gen_ai.system.message span event records role "system". -/
theorem persona_role_amended (s : Settings) (agent : Agent) (thread : Thread)
    (mc : Except JsError Unit) (pr : Except JsError Run) (lm : Except JsError (List Message)) :
    RemoteCall.messagesCreate thread.id "assistant" systemPrompt ∈
      (jokeBody s { getAgent := Except.ok agent, threadsCreate := Except.ok thread,
                    messagesCreate := mc, pollRun := pr, listMessages := lm }).calls ∧
    SpanOp.addEvent "gen_ai.system.message"
      [("gen_ai.event.content", AttrVal.jsonMsgRole systemPrompt "system"),
       ("gen_ai.thread.id", AttrVal.str thread.id)] ∈
      (jokeBody s { getAgent := Except.ok agent, threadsCreate := Except.ok thread,
                    messagesCreate := mc, pollRun := pr, listMessages := lm }).spanOps ∧
    ∀ text : String,
      RemoteCall.messagesCreate thread.id "system" text ∉
        (jokeBody s { getAgent := Except.ok agent, threadsCreate := Except.ok thread,
                      messagesCreate := mc, pollRun := pr, listMessages := lm }).calls := by
  refine ⟨?_, ?_, ?_⟩
  · simp only [jokeBody]
    repeat' split
    all_goals simp [jokeCatch]
  · simp only [jokeBody]
    repeat' split
    all_goals simp [jokeCatch, baseOps]
  · intro text
    simp only [jokeBody]
    repeat' split
    all_goals simp [jokeCatch]

/-- Witness for C1 as amended at a concrete environment. -/
theorem persona_role_amended_witness :
    RemoteCall.messagesCreate "t1" "assistant" systemPrompt ∈
      (jokeBody settings0 envFail).calls :=
  (persona_role_amended settings0 agent1 thread1 (Except.ok ())
    (Except.ok runFailedRec) (Except.ok [])).1

end StandAI
